import Mathlib

/-!
Shallow embedding of `shellsubst.py` (class `ShellSubst`): a shell-style
variable substitution engine. Strings are modelled as `List Char`, the
mutable value store (`self.values`, a Python dict) as an association list,
and Python exceptions as an explicit `Err` sum carried in `Except`.
Recursion (the scan loop of `replace`, nested fallback expansion through
`_handle_expansion`, and the span search `_find_subst_end`) is driven by an
explicit fuel parameter so every function is structurally recursive and
kernel-computable; `Err.outOfFuel` is a model artifact that never occurs in
any theorem below. Python exceptions do not roll back the mutations already
performed on `self`, so every stateful function returns its result paired
with the engine (also on the error path).
-/

/-- Length of the maximal run of characters satisfying `p` at the front. -/
def countWhile (p : Char → Bool) : List Char → Nat
| [] => 0
| c :: t => if p c then countWhile p t + 1 else 0

/-- Python `string[a:b]` for non-negative bounds (clamping like Python). -/
def substr (s : List Char) (a b : Nat) : List Char := (s.take b).drop a

/-- Index of the first character satisfying `p` at or after `start`; models
both `str.find(c, start)` and `re.Pattern.search(string, start)` for a
single character class. -/
def findFrom (p : Char → Bool) (s : List Char) (start : Nat) : Option Nat :=
  ((s.drop start).findIdx? p).map (· + start)

/-- Python whitespace accepted (and stripped) by `int(str)`. -/
def isPyWS (c : Char) : Bool :=
  c = ' ' || c = '\t' || c = '\n' || c = '\r' || c = '\x0b' || c = '\x0c'

/-- Strip `isPyWS` characters from both ends. -/
def trimWS (s : List Char) : List Char :=
  ((s.dropWhile isPyWS).reverse.dropWhile isPyWS).reverse

def digitVal (c : Char) : Nat := c.toNat - 48

/-- Digit-run tail parser for Python `int`: after a first digit, digits may
be separated by single underscores (`1_000`); a leading, trailing or
doubled underscore is rejected. -/
def pyDigitsGo (acc : Nat) : List Char → Option Nat
| [] => some acc
| '_' :: t =>
  match t with
  | d :: t2 => if d.isDigit then pyDigitsGo (acc * 10 + digitVal d) t2 else none
  | [] => none
| d :: t => if d.isDigit then pyDigitsGo (acc * 10 + digitVal d) t else none

/-- Nonempty digit sequence (with Python underscore grouping). -/
def pyDigits : List Char → Option Nat
| [] => none
| d :: t => if d.isDigit then pyDigitsGo (digitVal d) t else none

/-- `ShellSubst._variable_as_int`: Python `int(name)` returning `None` on
`ValueError` — surrounding whitespace stripped, optional single sign,
decimal digits with underscore grouping. -/
def variable_as_int (s : List Char) : Option Int :=
  match trimWS s with
  | '+' :: r => (pyDigits r).map (fun n => (n : Int))
  | '-' :: r => (pyDigits r).map (fun n => -(n : Int))
  | r => (pyDigits r).map (fun n => (n : Int))

/-- Normalize one Python slice bound against a length: negative bounds count
from the end (clamped at 0), non-negative bounds are clamped at the length. -/
def pyBound (len : Nat) (i : Int) : Nat :=
  if i < 0 then ((len : Int) + i).toNat else min i.toNat len

/-- Python `v[a:b]`. -/
def pySlice (v : List Char) (a b : Int) : List Char :=
  (v.take (pyBound v.length b)).drop (pyBound v.length a)

/-- Python `v[a:]`. -/
def pySliceFrom (v : List Char) (a : Int) : List Char :=
  v.drop (pyBound v.length a)

def isIdentChar (c : Char) : Bool := c.isAlpha || c.isDigit || c = '_'

/-- `self._re_varname.match(string, i)`: anchored match of the configured
variable-name regex, returning the matched name and its end index.
`argsRe = true` is `_re_variable_name_with_args`, the ordered alternation
`[@*#]|[0-9]+|[a-zA-Z_][a-zA-Z0-9_]*`; `argsRe = false` is
`_re_variable_name`, `[a-zA-Z0-9][a-zA-Z0-9_]*` (note: a leading digit is
accepted there). -/
def varnameMatch (argsRe : Bool) (s : List Char) (i : Nat) : Option (List Char × Nat) :=
  match s.get? i with
  | none => none
  | some c =>
    if argsRe then
      if c = '@' || c = '*' || c = '#' then some ([c], i + 1)
      else if c.isDigit then
        let n := countWhile Char.isDigit (s.drop i)
        some (substr s i (i + n), i + n)
      else if c.isAlpha || c = '_' then
        let n := 1 + countWhile isIdentChar (s.drop (i + 1))
        some (substr s i (i + n), i + n)
      else none
    else
      if c.isAlpha || c.isDigit then
        let n := 1 + countWhile isIdentChar (s.drop (i + 1))
        some (substr s i (i + n), i + n)
      else none

/-- The nine operator tokens the four format-spec regexes can produce. -/
inductive FmtSpec where
| colonDash  -- ":-"
| dash       -- "-"
| colonEq    -- ":="
| eqOp       -- "="
| colonQuest -- ":?"
| quest      -- "?"
| colonPlus  -- ":+"
| plusOp     -- "+"
| colonOnly  -- ":"  (string-slice form)
deriving DecidableEq

def fmtOfOp : Char → Option FmtSpec
| '-' => some .dash
| '=' => some .eqOp
| '?' => some .quest
| '+' => some .plusOp
| _ => none

def fmtOfColonOp : Char → Option FmtSpec
| '-' => some .colonDash
| '=' => some .colonEq
| '?' => some .colonQuest
| '+' => some .colonPlus
| _ => none

/-- `self._re_format_spec.match(string, i)`: anchored match of the
configured format-spec regex, returning the operator token and end index.
The four regexes from the source:
`posix ∧ strops`: `:[-=?+]?|[-=?+]`; `posix`: `:?[-=?+]`;
`strops`: `:-?|-`; neither: `:?-`. -/
def fmtspecMatch (posix strops : Bool) (s : List Char) (i : Nat) : Option (FmtSpec × Nat) :=
  match s.get? i with
  | none => none
  | some c =>
    if posix then
      if strops then
        if c = ':' then
          match s.get? (i + 1) with
          | some d =>
            match fmtOfColonOp d with
            | some f => some (f, i + 2)
            | none => some (.colonOnly, i + 1)
          | none => some (.colonOnly, i + 1)
        else
          match fmtOfOp c with
          | some f => some (f, i + 1)
          | none => none
      else
        if c = ':' then
          match s.get? (i + 1) with
          | some d =>
            match fmtOfColonOp d with
            | some f => some (f, i + 2)
            | none => none
          | none => none
        else
          match fmtOfOp c with
          | some f => some (f, i + 1)
          | none => none
    else
      if strops then
        if c = ':' then
          if s.get? (i + 1) = some '-' then some (.colonDash, i + 2)
          else some (.colonOnly, i + 1)
        else if c = '-' then some (.dash, i + 1)
        else none
      else
        if c = ':' then
          if s.get? (i + 1) = some '-' then some (.colonDash, i + 2)
          else none
        else if c = '-' then some (.dash, i + 1)
        else none

/-- Structured payload of a `FormatStringError` message. -/
inductive FmtMsg where
| strlenWithSpec        -- "string length operation cannot be performed with format specifications"
| sliceOffsetNotNumeric -- "non-numeric string slice offset"
| sliceLengthNotNumeric -- "non-numeric string slice length"
deriving DecidableEq

/-- Structured payload of a `SubstitutionError` message. -/
inductive SubstMsg where
| specialAssign (spec : FmtSpec) (name : List Char) -- "cannot use <spec> with special variable $<name>"
| notSetOrEmpty (name msg : List Char)              -- "variable <name> not set or empty: <msg>"
| notSet (name msg : List Char)                     -- "variable <name> not set: <msg>"
deriving DecidableEq

/-- The failures `ShellSubst` can surface, one constructor per Python
exception class raised by the source (plus the host-level `TypeError` the
interpreter raises, and the fuel artifact of this model). -/
inductive Err where
| invalidVariableName           -- InvalidVariableNameError
| unterminatedFormat            -- UnterminatedFormatError
| formatString (m : FmtMsg)     -- FormatStringError (general)
| substitution (m : SubstMsg)   -- SubstitutionError
| keyError (name : List Char)   -- KeyError(name), strict-mode missing key
| typeError                     -- host TypeError (str.join on an int, len(None), None[i:j])
| outOfFuel                     -- model artifact only
deriving DecidableEq

/-- True exactly for the constructors that model Python `FormatStringError`
or one of its subclasses. -/
def Err.isFormatStringClass : Err → Bool
| .invalidVariableName => true
| .unterminatedFormat => true
| .formatString _ => true
| _ => false

/-- True exactly for the constructor that models Python `SubstitutionError`. -/
def Err.isSubstitutionClass : Err → Bool
| .substitution _ => true
| _ => false

/-- One element of the `parts` list built by `replace`: the source appends
strings, except the string-length branch which appends the *integer*
`len(value)` (line 174 of the source). -/
inductive Piece where
| s (cs : List Char)
| len (n : Nat)
deriving DecidableEq

/-- Python `"".join(parts)`: concatenates string items, raises `TypeError`
at the first non-string item. -/
def joinParts : List Piece → Except Err (List Char)
| [] => .ok []
| .s cs :: t =>
  match joinParts t with
  | .ok r => .ok (cs ++ r)
  | .error er => .error er
| .len _ :: _ => .error .typeError

/-- The Resolution Context: `self.values`, a Python dict from names to
strings, as an association list (first binding of a key wins). -/
abbrev Ctx := List (List Char × List Char)

/-- `self.values.get(name, None)`. -/
def ctxGet : Ctx → List Char → Option (List Char)
| [], _ => none
| (k, v) :: t, n => if k = n then some v else ctxGet t n

/-- `self.values[name] = v`: overwrite in place if present, else append. -/
def ctxSet : Ctx → List Char → List Char → Ctx
| [], n, v => [(n, v)]
| (k, w) :: t, n, v => if k = n then (n, v) :: t else (k, w) :: ctxSet t n v

/-- A logger callable: `logging.warning` (the process-wide default warning
sink) or a user-supplied sink, identified abstractly. -/
inductive LoggerRef where
| warning          -- logging.warning
| user (id : Nat)  -- any caller-provided callable
deriving DecidableEq

/-- The engine object. `_re_varname` holds the boolean the precompiled
variable-name regex was derived from (`true` ↔ `_re_variable_name_with_args`);
`_re_format_posix`/`_re_format_strops` likewise identify which of the four
format-spec regexes `_re_format_spec` holds. `argv` models the ambient
`sys.argv` the resolver reads. The unused alias `self.mapping` is omitted. -/
structure ShellSubst where
  strict : Bool
  raise_on_error_expansion : Bool
  logger : Option LoggerRef
  values : Ctx
  argv : List (List Char)
  _expand_args : Bool
  _posix_formats : Bool
  _allow_string_ops : Bool
  _re_varname : Bool
  _re_format_posix : Bool
  _re_format_strops : Bool
deriving DecidableEq

/-- `ShellSubst.__init__` (with `values` and the ambient `sys.argv` passed
explicitly rather than defaulted from the environment). -/
def mkShellSubst (values : Ctx) (argv : List (List Char))
    (strict expand_args posix_formats allow_string_ops raise_on_error_expansion : Bool)
    (logger : Option LoggerRef) : ShellSubst :=
  { strict := strict
    raise_on_error_expansion := raise_on_error_expansion
    logger := logger
    values := values
    argv := argv
    _expand_args := expand_args
    _posix_formats := posix_formats
    _allow_string_ops := allow_string_ops
    _re_varname := expand_args
    _re_format_posix := posix_formats
    _re_format_strops := allow_string_ops }

/-- The `expand_args` property getter: returns `self._expand_args`. -/
def ShellSubst.expand_args (e : ShellSubst) : Bool := e._expand_args

/-- The `expand_args` property setter, exactly as in the source (lines
91–94): it assigns `self._expand_args = True` (not `value`) and rebuilds
the name matcher from `value`. -/
def ShellSubst.set_expand_args (e : ShellSubst) (value : Bool) : ShellSubst :=
  { e with _expand_args := true, _re_varname := value }

/-- The `posix_formats` property setter (lines 100–106). -/
def ShellSubst.set_posix_formats (e : ShellSubst) (value : Bool) : ShellSubst :=
  { e with _posix_formats := value, _re_format_posix := value,
           _re_format_strops := e._allow_string_ops }

/-- The `allow_string_ops` property setter (lines 112–118). -/
def ShellSubst.set_allow_string_ops (e : ShellSubst) (value : Bool) : ShellSubst :=
  { e with _allow_string_ops := value, _re_format_posix := e._posix_formats,
           _re_format_strops := value }

/-- `" ".join(args)`. -/
def joinSpace (xs : List (List Char)) : List Char := List.intercalate [' '] xs

/-- Decimal digits of a natural number, via `str(n)`. -/
def natToChars (n : Nat) : List Char := (Nat.repr n).data

/-- `ShellSubst._get_variable(name) -> (value, special)`: `@`/`*` give the
space-joined arguments after index 0; `#` the stringified argv length; a
name parsing as an int indexes `sys.argv` (absent if out of range); any
other name is looked up in `self.values`. -/
def ShellSubst.get_variable (e : ShellSubst) (name : List Char) : Option (List Char) × Bool :=
  if name = ['@'] || name = ['*'] then (some (joinSpace (e.argv.drop 1)), true)
  else if name = ['#'] then (some (natToChars e.argv.length), true)
  else
    match variable_as_int name with
    | some i =>
      if i < 0 || (e.argv.length : Int) ≤ i then (none, true)
      else (e.argv.get? i.toNat, true)
    | none => (ctxGet e.values name, false)

/-- `ShellSubst._find_subst_end(string, start)`: scan forward over `$` and
curly-close delimiters for the index one past the `}` terminating the
current fallback text, recursing through nested brace forms; the while loop
of the source is the tail recursion here, spending one unit of fuel per
step. -/
def ShellSubst.find_subst_end : Nat → ShellSubst → List Char → Nat → Except Err Nat
| 0, _, _, _ => .error .outOfFuel
| fuel + 1, e, s, start =>
  match findFrom (fun c => c = '$' || c = '}') s start with
  | none => .error .unterminatedFormat
  | some d =>
    if s.get? d = some '}' then .ok (d + 1)
    else
      let idx := d + 1
      if s.length ≤ idx then .error .unterminatedFormat
      else if s.get? idx = some '{' then
        match varnameMatch e._re_varname s (idx + 1) with
        | none => .error .invalidVariableName
        | some (_, i1) =>
          match fmtspecMatch e._re_format_posix e._re_format_strops s i1 with
          | none =>
            if s.length ≤ i1 || !(s.get? i1 = some '}') then .error .unterminatedFormat
            else ShellSubst.find_subst_end fuel e s (i1 + 1)
          | some (_, i2) =>
            match ShellSubst.find_subst_end fuel e s i2 with
            | .error er => .error er
            | .ok st2 => ShellSubst.find_subst_end fuel e s st2
      else if 2 ≤ idx && s.get? (idx - 2) = some '\\' then
        ShellSubst.find_subst_end fuel e s (idx + 1)
      else
        match varnameMatch e._re_varname s idx with
        | none => .error .invalidVariableName
        | some (_, i1) => ShellSubst.find_subst_end fuel e s i1

/-- Defunctionalized call descriptor for the mutually recursive trio
`replace` (entry), its scan loop (the `while idx >= 0` body), and
`_handle_expansion`; one fuel unit is spent per call or loop iteration. -/
inductive Call where
| replaceC (e : ShellSubst) (s : List Char)
| loopC (e : ShellSubst) (s : List Char) (start idx : Nat) (parts : List Piece)
| handleC (e : ShellSubst) (name : List Char) (special : Bool) (spec : FmtSpec)
    (value : Option (List Char)) (defstr : List Char)

def Call.engine : Call → ShellSubst
| .replaceC e _ => e
| .loopC e _ _ _ _ => e
| .handleC e _ _ _ _ _ => e

/-- Append the final literal span and join: the epilogue after the scan
loop of `replace` (lines 220–224). -/
def finishParts (e : ShellSubst) (s : List Char) (start : Nat) (parts : List Piece) :
    Except Err (List Char) × ShellSubst :=
  (joinParts (if start < s.length then parts ++ [.s (s.drop start)] else parts), e)

/-- The engine core. `replaceC` is `ShellSubst.replace`; `loopC` one
iteration of its scan loop; `handleC` is `ShellSubst._handle_expansion`.
Transcribed branch for branch from the source (the two debug `print`
statements, which do not affect the result, are dropped). -/
def run : Nat → Call → Except Err (List Char) × ShellSubst
| 0, c => (.error .outOfFuel, c.engine)
| fuel + 1, .replaceC e s =>
  -- lines 121–124: fast path when no "$" occurs
  match findFrom (· = '$') s 0 with
  | none => (.ok s, e)
  | some idx => run fuel (.loopC e s 0 idx [])
| fuel + 1, .loopC e s start idx parts =>
  -- lines 128–135: escaped "$"
  if 1 ≤ idx && s.get? (idx - 1) = some '\\' then
    let parts := if start < idx - 1 then parts ++ [.s (substr s start (idx - 1))] else parts
    let parts := parts ++ [.s ['$']]
    let start := idx + 1
    match findFrom (· = '$') s start with
    | some idx2 => run fuel (.loopC e s start idx2 parts)
    | none => finishParts e s start parts
  -- lines 137–144: "$" as the final character
  else if s.length ≤ idx + 1 then
    if e.strict then (.error .invalidVariableName, e)
    else (joinParts (parts ++ [.s (s.drop start)]), e)
  else
    -- lines 146–149: the literal gap before this "$"
    let parts := if start < idx then parts ++ [.s (substr s start idx)] else parts
    if s.get? (idx + 1) = some '{' then
      -- lines 151–157: brace form, with optional "#" string-length marker
      let strlen : Bool := idx + 2 < s.length && s.get? (idx + 2) = some '#'
      let i0 := if strlen then idx + 3 else idx + 2
      match varnameMatch e._re_varname s i0 with
      | none => (.error .invalidVariableName, e)
      | some (name, i1) =>
        if s.length ≤ i1 then (.error .unterminatedFormat, e)
        else
          let vs := e.get_variable name
          if s.get? i1 = some '}' then
            -- lines 171–180: no format spec
            match vs.1 with
            | some v =>
              let parts := parts ++ [if strlen then Piece.len v.length else Piece.s v]
              match findFrom (· = '$') s (i1 + 1) with
              | some idx2 => run fuel (.loopC e s (i1 + 1) idx2 parts)
              | none => finishParts e s (i1 + 1) parts
            | none =>
              if e.strict then (.error (.keyError name), e)
              else
                let parts := if strlen then parts ++ [Piece.s ['0']] else parts
                match findFrom (· = '$') s (i1 + 1) with
                | some idx2 => run fuel (.loopC e s (i1 + 1) idx2 parts)
                | none => finishParts e s (i1 + 1) parts
          else
            -- lines 182–202: format spec present
            match fmtspecMatch e._re_format_posix e._re_format_strops s i1 with
            | none => (.error .unterminatedFormat, e)
            | some (spec, i2) =>
              if strlen then (.error (.formatString .strlenWithSpec), e)
              else
                match ShellSubst.find_subst_end fuel e s i2 with
                | .error er => (.error er, e)
                | .ok fin =>
                  let defstr := substr s i2 (fin - 1)
                  match run fuel (.handleC e name vs.2 spec vs.1 defstr) with
                  | (.error er, e2) => (.error er, e2)
                  | (.ok res, e2) =>
                    let parts := parts ++ [Piece.s res]
                    match findFrom (· = '$') s fin with
                    | some idx2 => run fuel (.loopC e2 s fin idx2 parts)
                    | none => finishParts e2 s fin parts
    else
      -- lines 203–215: bare $NAME
      match varnameMatch e._re_varname s (idx + 1) with
      | none => (.error .invalidVariableName, e)
      | some (name, i1) =>
        match (e.get_variable name).1 with
        | some v =>
          let parts := parts ++ [Piece.s v]
          match findFrom (· = '$') s i1 with
          | some idx2 => run fuel (.loopC e s i1 idx2 parts)
          | none => finishParts e s i1 parts
        | none =>
          if e.strict then (.error (.keyError name), e)
          else
            match findFrom (· = '$') s i1 with
            | some idx2 => run fuel (.loopC e s i1 idx2 parts)
            | none => finishParts e s i1 parts
| fuel + 1, .handleC e name special spec value defstr =>
  match spec with
  | .colonDash =>
    -- default substitution on unset or empty
    match value with
    | none => run fuel (.replaceC e defstr)
    | some v => if v = [] then run fuel (.replaceC e defstr) else (.ok v, e)
  | .dash =>
    -- default substitution on unset only
    match value with
    | none => run fuel (.replaceC e defstr)
    | some v => (.ok v, e)
  | .colonEq =>
    -- assignment substitution on unset or empty; rejected for special names
    if special then (.error (.substitution (.specialAssign .colonEq name)), e)
    else
      match value with
      | some v =>
        if v = [] then
          match run fuel (.replaceC e defstr) with
          | (.error er, e2) => (.error er, e2)
          | (.ok nv, e2) => (.ok nv, { e2 with values := ctxSet e2.values name nv })
        else (.ok v, e)
      | none =>
        match run fuel (.replaceC e defstr) with
        | (.error er, e2) => (.error er, e2)
        | (.ok nv, e2) => (.ok nv, { e2 with values := ctxSet e2.values name nv })
  | .eqOp =>
    -- assignment substitution on unset only; rejected for special names
    if special then (.error (.substitution (.specialAssign .eqOp name)), e)
    else
      match value with
      | some v => (.ok v, e)
      | none =>
        match run fuel (.replaceC e defstr) with
        | (.error er, e2) => (.error er, e2)
        | (.ok nv, e2) => (.ok nv, { e2 with values := ctxSet e2.values name nv })
  | .colonQuest =>
    -- error substitution on unset or empty
    match value with
    | some v =>
      if v = [] then
        match run fuel (.replaceC e defstr) with
        | (.error er, e2) => (.error er, e2)
        | (.ok msg, e2) =>
          if !e2.raise_on_error_expansion then
            let e3 := if e2.logger = none then { e2 with logger := some .warning } else e2
            (.ok [], e3)
          else (.error (.substitution (.notSetOrEmpty name msg)), e2)
      else (.ok v, e)
    | none =>
      match run fuel (.replaceC e defstr) with
      | (.error er, e2) => (.error er, e2)
      | (.ok msg, e2) =>
        if !e2.raise_on_error_expansion then
          let e3 := if e2.logger = none then { e2 with logger := some .warning } else e2
          (.ok [], e3)
        else (.error (.substitution (.notSetOrEmpty name msg)), e2)
  | .quest =>
    -- error substitution on unset only
    match value with
    | some v => (.ok v, e)
    | none =>
      match run fuel (.replaceC e defstr) with
      | (.error er, e2) => (.error er, e2)
      | (.ok msg, e2) =>
        if !e2.raise_on_error_expansion then
          let e3 := if e2.logger = none then { e2 with logger := some .warning } else e2
          (.ok [], e3)
        else (.error (.substitution (.notSet name msg)), e2)
  | .colonPlus =>
    -- alternate word substitution on set and nonempty
    match value with
    | none => (.ok [], e)
    | some v => if v = [] then (.ok [], e) else run fuel (.replaceC e defstr)
  | .plusOp =>
    -- alternate word substitution on set (possibly empty)
    match value with
    | none => (.ok [], e)
    | some _ => run fuel (.replaceC e defstr)
  | .colonOnly =>
    -- string slicing (lines 292–310); the unset case is unguarded and hits
    -- len(None) / None[a:b], a host TypeError
    match findFrom (· = ':') defstr 0 with
    | none =>
      match variable_as_int defstr with
      | none => (.error (.formatString .sliceOffsetNotNumeric), e)
      | some pos =>
        match value with
        | none => (.error .typeError, e)
        | some v =>
          if (v.length : Int) ≤ pos then (.ok [], e)
          else (.ok (pySliceFrom v pos), e)
    | some i =>
      let pos? := variable_as_int (substr defstr 0 i)
      let count? := variable_as_int (defstr.drop (i + 1))
      match pos? with
      | none => (.error (.formatString .sliceOffsetNotNumeric), e)
      | some pos =>
        match count? with
        | none => (.error (.formatString .sliceLengthNotNumeric), e)
        | some cnt =>
          match value with
          | none => (.error .typeError, e)
          | some v => (.ok (pySlice v pos (pos + cnt)), e)

/-- `ShellSubst.replace(string)`: the public expansion entry point. -/
def ShellSubst.replace (fuel : Nat) (e : ShellSubst) (s : List Char) :
    Except Err (List Char) × ShellSubst :=
  run fuel (.replaceC e s)

/-- `ShellSubst._handle_expansion` as a named entry point. -/
def ShellSubst.handle_expansion (fuel : Nat) (e : ShellSubst) (name : List Char)
    (special : Bool) (spec : FmtSpec) (value : Option (List Char)) (defstr : List Char) :
    Except Err (List Char) × ShellSubst :=
  run fuel (.handleC e name special spec value defstr)

/-! ## Engine configurations used by the theorems -/

/-- Engine with all constructor defaults (`strict=False`, `expand_args=False`,
`posix_formats=True`, `allow_string_ops=True`, `raise_on_error_expansion=True`,
no logger), an empty `sys.argv`, and the given value store. -/
def mkDefaultEngine (values : Ctx) : ShellSubst :=
  mkShellSubst values [] false false true true true none

/-- As `mkDefaultEngine` but with `strict=True`. -/
def mkStrictEngine (values : Ctx) : ShellSubst :=
  mkShellSubst values [] true false true true true none

/-- Constructor defaults plus `expand_args=True` and a two-element
`sys.argv` (program name and one argument). -/
def mkArgsEngine (values : Ctx) : ShellSubst :=
  mkShellSubst values ["prog".data, "one".data] false true true true true none

/-- Constructor defaults but `expand_args=False`, a two-element `sys.argv`,
and the value store binding the pure-digit key "1" to "x". -/
def eNoArgs : ShellSubst :=
  mkShellSubst [("1".data, "x".data)] ["prog".data, "argOne".data] false false true true true none

/-- The fixture configuration of the repository's own test
`test_simple_no_strops_no_err` (`posix_formats=False`, `allow_string_ops=False`,
`strict=False`) with the binding one ↦ "1". -/
def eSimpleCfg : ShellSubst :=
  mkShellSubst [("one".data, "1".data)] [] false false false false true none

/-! ## Sanity checks mirroring the repository's test suite -/

example : (ShellSubst.replace 100 (mkDefaultEngine [("A".data, "a".data)]) "$A".data).1 = .ok "a".data := rfl
example : (ShellSubst.replace 100 (mkDefaultEngine []) "Total: \\$100".data).1 = .ok "Total: $100".data := rfl
example : (ShellSubst.replace 100 eSimpleCfg "$\x7bone-one\x7d".data).1 = .ok "1".data := rfl
example : (ShellSubst.replace 100 eSimpleCfg "$\x7bmissing-one\x7d".data).1 = .ok "one".data := rfl
example : (ShellSubst.replace 100 eSimpleCfg "$\x7bone+one\x7d".data).1 = .error .unterminatedFormat := rfl
example : (ShellSubst.replace 100 (mkDefaultEngine [("V".data, "hello".data)]) "$\x7bV:1\x7d".data).1 = .ok "ello".data := rfl
example : (ShellSubst.replace 100 (mkDefaultEngine [("V".data, "hello".data)]) "$\x7bV:1:3\x7d".data).1 = .ok "ell".data := rfl
example : (ShellSubst.replace 100 (mkDefaultEngine [("V".data, "hello".data)]) "$\x7bV:10\x7d".data).1 = .ok [] := rfl
example : (ShellSubst.replace 100 (mkStrictEngine []) "$MISSING".data).1 = .error (.keyError "MISSING".data) := rfl
example : (ShellSubst.replace 100 (mkDefaultEngine []) "$MISSING".data).1 = .ok [] := rfl

/-! ## The claims -/

/-- C1: the claim says the string-length form on a set name yields the
decimal length. The code instead appends the Python `int` `len(value)` to
the parts list (line 174), so the final `"".join(parts)` raises a host
`TypeError`: with A ↦ "a", expanding the strlen form of A fails with
`typeError` instead of returning "1". The unset halves of the claim do hold:
non-strict yields "0", strict raises `KeyError("A")`. The last conjunct
evaluates the repository's own test case (`test_simple_no_strops_no_err` on
the strlen form of `one`, fixture configuration): it also hits `typeError`,
while the test expects an `InvalidVariableNameError` — the code contradicts
its own test suite. -/
theorem C1_strlen_eval :
    ShellSubst.replace 100 (mkDefaultEngine [("A".data, "a".data)]) "$\x7b#A\x7d".data
      = (.error .typeError, mkDefaultEngine [("A".data, "a".data)]) ∧
    ShellSubst.replace 100 (mkDefaultEngine []) "$\x7b#A\x7d".data
      = (.ok "0".data, mkDefaultEngine []) ∧
    ShellSubst.replace 100 (mkStrictEngine []) "$\x7b#A\x7d".data
      = (.error (.keyError "A".data), mkStrictEngine []) ∧
    ShellSubst.replace 100 eSimpleCfg "$\x7b#one\x7d".data
      = (.error .typeError, eSimpleCfg) ∧
    Err.typeError ≠ Err.invalidVariableName :=
  ⟨rfl, rfl, rfl, rfl, by decide⟩

/-- C2: nested default substitution. With A and B both unset the outer
fallback (the full nested brace form of B with default x) is isolated by
the span finder and recursively expanded to "x"; with A unset and B ↦ "y"
it expands to "y"; with A ↦ "z" the result is "z" for every state of B
(b = none models B unset, b = some y models B ↦ y for an arbitrary y), and
the engine is returned unchanged in each case. -/
theorem C2_nested_default :
    ShellSubst.replace 100 (mkDefaultEngine []) "$\x7bA:-$\x7bB:-x\x7d\x7d".data
      = (.ok "x".data, mkDefaultEngine []) ∧
    ShellSubst.replace 100 (mkDefaultEngine [("B".data, "y".data)]) "$\x7bA:-$\x7bB:-x\x7d\x7d".data
      = (.ok "y".data, mkDefaultEngine [("B".data, "y".data)]) ∧
    ∀ b : Option (List Char),
      ShellSubst.replace 100
          (mkDefaultEngine (("A".data, "z".data) ::
            (match b with | some y => [("B".data, y)] | none => [])))
          "$\x7bA:-$\x7bB:-x\x7d\x7d".data
        = (.ok "z".data,
           mkDefaultEngine (("A".data, "z".data) ::
             (match b with | some y => [("B".data, y)] | none => []))) :=
  ⟨rfl, rfl, fun b => by cases b <;> rfl⟩

/-- Engine for C3: value store with A bound to an arbitrary value `av` and
the name NAME unset. -/
def e3 (av : List Char) : ShellSubst := mkDefaultEngine [("A".data, av)]

/-- Engine state C3 expects after the assignment: NAME stored with the
expansion of the fallback text (the value of A followed by the literal x). -/
def e3x (av : List Char) : ShellSubst :=
  mkDefaultEngine [("A".data, av), ("NAME".data, av ++ ['x'])]

/-- C3: assignment substitution (the colon-eq operator) on the unset,
non-positional name NAME with fallback text containing the nested brace
form of A followed by the literal x. For every value `av` of A, the result
is the recursive expansion of the fallback (`av ++ "x"`) and that computed
value is stored in the Resolution Context under NAME, so a subsequent
lookup of NAME returns it. The last two conjuncts instantiate `av := "a"`
and show the second expansion of the same template against the mutated
context returns the same result and leaves the context fixed (idempotence). -/
theorem C3_assign_unset :
    (∀ av : List Char,
      ShellSubst.replace 100 (e3 av) "$\x7bNAME:=$\x7bA\x7dx\x7d".data
          = (.ok (av ++ ['x']), e3x av) ∧
      ctxGet (e3x av).values "NAME".data = some (av ++ ['x'])) ∧
    ShellSubst.replace 100 (e3 "a".data) "$\x7bNAME:=$\x7bA\x7dx\x7d".data
      = (.ok "ax".data, e3x "a".data) ∧
    ShellSubst.replace 100 (e3x "a".data) "$\x7bNAME:=$\x7bA\x7dx\x7d".data
      = (.ok "ax".data, e3x "a".data) :=
  ⟨fun av =>
    ⟨by
      have h : ShellSubst.replace 100 (e3 av) "$\x7bNAME:=$\x7bA\x7dx\x7d".data
          = (.ok ((av ++ ['x']) ++ []), e3x av) := rfl
      simpa using h, rfl⟩, rfl, rfl⟩

/-- C4 counterexample: the claim asserts every positional/special name —
explicitly including "#" — raises a SubstitutionError under the assignment
operator. But in the brace form the scanner consumes a leading "#" as the
string-length marker (line 152) before matching a name, so for NAME = "#"
the template never reaches the operator dispatcher: the name match fails at
":" and `InvalidVariableNameError` is raised instead, which is not a
SubstitutionError. (The context is still unchanged.) -/
theorem C4_counterexample :
    ShellSubst.replace 100 (mkArgsEngine []) "$\x7b#:=f\x7d".data
      = (.error .invalidVariableName, mkArgsEngine []) ∧
    Err.invalidVariableName.isSubstitutionClass = false :=
  ⟨rfl, rfl⟩

/-- C4 amended: for the positional/special names "@", "*" and digit
sequences (in-range "1" and out-of-range "9" alike), expanding the
assignment forms raises a SubstitutionError before any assignment or
fallback expansion, and the engine — in particular the Resolution Context —
is returned unchanged; the same holds for the non-colon assignment
operator. For "#" the string-length marker intercepts the parse and
`InvalidVariableNameError` is raised instead (context also unchanged). -/
theorem C4_special_assign_amended :
    ShellSubst.replace 100 (mkArgsEngine []) "$\x7b@:=f\x7d".data
      = (.error (.substitution (.specialAssign .colonEq "@".data)), mkArgsEngine []) ∧
    ShellSubst.replace 100 (mkArgsEngine []) "$\x7b*:=f\x7d".data
      = (.error (.substitution (.specialAssign .colonEq "*".data)), mkArgsEngine []) ∧
    ShellSubst.replace 100 (mkArgsEngine []) "$\x7b1:=f\x7d".data
      = (.error (.substitution (.specialAssign .colonEq "1".data)), mkArgsEngine []) ∧
    ShellSubst.replace 100 (mkArgsEngine []) "$\x7b9:=f\x7d".data
      = (.error (.substitution (.specialAssign .colonEq "9".data)), mkArgsEngine []) ∧
    ShellSubst.replace 100 (mkArgsEngine []) "$\x7b@=f\x7d".data
      = (.error (.substitution (.specialAssign .eqOp "@".data)), mkArgsEngine []) ∧
    ShellSubst.replace 100 (mkArgsEngine []) "$\x7b#:=f\x7d".data
      = (.error .invalidVariableName, mkArgsEngine []) :=
  ⟨rfl, rfl, rfl, rfl, rfl, rfl⟩

/-- C5 counterexample: with `expand_args` disabled, the value store binding
key "1" to "x", and `sys.argv = ["prog", "argOne"]`, both the bare and the
braced reference to the name 1 expand to "argOne" — the positional argument
— not to the mapping value "x" the claim requires, because
`_get_variable` consults `sys.argv` for any name parsing as an integer
regardless of the `expand_args` flag. -/
theorem C5_counterexample :
    ShellSubst.replace 100 eNoArgs "$1".data = (.ok "argOne".data, eNoArgs) ∧
    ShellSubst.replace 100 eNoArgs "$\x7b1\x7d".data = (.ok "argOne".data, eNoArgs) ∧
    ctxGet eNoArgs.values "1".data = some "x".data ∧
    "argOne".data ≠ "x".data :=
  ⟨rfl, rfl, rfl, by decide⟩

/-- C5 amended: disabling `expand_args` only restricts the scanner's name
grammar to the identifier form (a special name like "@" is rejected with
`InvalidVariableNameError`), but resolution is independent of the flag: a
pure-digit name accepted by that grammar is still resolved against the
external argument vector, so the bare and braced references to the name 1
yield `argv[1]` rather than the mapping entry for the key "1". -/
theorem C5_digit_positional_amended :
    eNoArgs._re_varname = false ∧
    ShellSubst.replace 100 eNoArgs "$@".data = (.error .invalidVariableName, eNoArgs) ∧
    ShellSubst.replace 100 eNoArgs "$1".data = (.ok "argOne".data, eNoArgs) ∧
    ShellSubst.replace 100 eNoArgs "$\x7b1\x7d".data = (.ok "argOne".data, eNoArgs) :=
  ⟨rfl, rfl, rfl, rfl⟩

/-- C6 counterexample: the claim names UnterminatedFormatError as the error
for a trailing unescaped "$" in strict mode, but the source raises
`InvalidVariableNameError` there (line 141), a distinct error class; and
the claim's "exactly when a brace form never reaches its closing brace" is
also too strong: on a braced name followed by a character that is neither
the closing brace nor a recognized operator (the template with "one.")
`UnterminatedFormatError` is raised even though the closing brace is
present in the input. -/
theorem C6_counterexample :
    ShellSubst.replace 100 (mkStrictEngine []) "$".data
      = (.error .invalidVariableName, mkStrictEngine []) ∧
    Err.invalidVariableName ≠ Err.unterminatedFormat ∧
    ShellSubst.replace 100 (mkDefaultEngine [("one".data, "1".data)]) "$\x7bone.\x7d".data
      = (.error .unterminatedFormat, mkDefaultEngine [("one".data, "1".data)]) ∧
    '}' ∈ "$\x7bone.\x7d".data :=
  ⟨rfl, by decide, rfl, by decide⟩

/-- C6 amended: `replace` raises UnterminatedFormatError when a brace form
(the unterminated NAME template), or a nested brace form inside fallback
text (the unterminated B inside the default of A), never reaches its
closing brace — in strict and non-strict mode alike — and also when the
character after a braced name is neither the closing brace nor a recognized
operator token. A trailing unescaped "$" raises `InvalidVariableNameError`
(not UnterminatedFormatError) in strict mode, and is emitted literally in
non-strict mode. -/
theorem C6_unterminated_amended :
    ShellSubst.replace 100 (mkDefaultEngine []) "$\x7bNAME".data
      = (.error .unterminatedFormat, mkDefaultEngine []) ∧
    ShellSubst.replace 100 (mkStrictEngine []) "$\x7bNAME".data
      = (.error .unterminatedFormat, mkStrictEngine []) ∧
    ShellSubst.replace 100 (mkDefaultEngine []) "$\x7bA:-$\x7bB".data
      = (.error .unterminatedFormat, mkDefaultEngine []) ∧
    ShellSubst.replace 100 (mkDefaultEngine [("one".data, "1".data)]) "$\x7bone.\x7d".data
      = (.error .unterminatedFormat, mkDefaultEngine [("one".data, "1".data)]) ∧
    ShellSubst.replace 100 (mkStrictEngine []) "$".data
      = (.error .invalidVariableName, mkStrictEngine []) ∧
    ShellSubst.replace 100 (mkDefaultEngine []) "$".data
      = (.ok "$".data, mkDefaultEngine []) :=
  ⟨rfl, rfl, rfl, rfl, rfl, rfl⟩

/-- C7: the claim (from the spec) says assigning the `expand_args` property
any boolean v makes the getter read back v with the matcher rebuilt from v.
The setter in the source (line 93) assigns `self._expand_args = True`
unconditionally — only the matcher is rebuilt from v — so for every engine
and every v the getter subsequently reads `true`: assigning `false` to an
engine is read back as `true` (diverging from the claim) while its matcher
is the one the constructor would derive from `false`. -/
theorem C7_set_expand_args_eval :
    (∀ (e : ShellSubst) (v : Bool),
      (e.set_expand_args v).expand_args = true ∧ (e.set_expand_args v)._re_varname = v) ∧
    ((mkShellSubst [] [] false true true true true none).set_expand_args false).expand_args
      = true ∧
    ((mkShellSubst [] [] false true true true true none).set_expand_args false)._re_varname
      = false ∧
    (mkShellSubst [] [] false false true true true none)._re_varname = false ∧
    true ≠ false :=
  ⟨fun _ _ => ⟨rfl, rfl⟩, rfl, rfl, rfl, by decide⟩

/-- C8: non-assignment operators are idempotent and side-effect-free. For
every context in which NAME is bound to the nonempty value "value" (NAME in
front position over an arbitrary remainder, and behind an unrelated binding
over an arbitrary remainder), expanding the default-substitution template
on NAME with fallback "ignored" returns "value" and the whole engine —
in particular the Resolution Context — unchanged; running the expansion a
second time on the returned engine yields the same result again. -/
theorem C8_default_op_idempotent :
    (∀ rest : Ctx,
      ShellSubst.replace 100 (mkDefaultEngine (("NAME".data, "value".data) :: rest))
          "$\x7bNAME:-ignored\x7d".data
        = (.ok "value".data, mkDefaultEngine (("NAME".data, "value".data) :: rest))) ∧
    (∀ rest : Ctx,
      ShellSubst.replace 100
          (mkDefaultEngine (("X".data, "1".data) :: ("NAME".data, "value".data) :: rest))
          "$\x7bNAME:-ignored\x7d".data
        = (.ok "value".data,
           mkDefaultEngine (("X".data, "1".data) :: ("NAME".data, "value".data) :: rest))) ∧
    (∀ rest : Ctx,
      ShellSubst.replace 100
          (ShellSubst.replace 100 (mkDefaultEngine (("NAME".data, "value".data) :: rest))
              "$\x7bNAME:-ignored\x7d".data).2
          "$\x7bNAME:-ignored\x7d".data
        = (.ok "value".data, mkDefaultEngine (("NAME".data, "value".data) :: rest))) :=
  ⟨fun _ => rfl, fun _ => rfl, fun _ => rfl⟩

/-- C9: the slice operator applied to an unset name. After the offset (and,
in the two-argument form, the length) parses as an integer, the code
reaches `len(value)` / `value[pos:pos+count]` with `value = None` — there
is no guard for the unset case — so the surfaced failure is the host-level
`TypeError`, which belongs to neither the FormatStringError hierarchy nor
SubstitutionError. A non-numeric offset still fails first with the
library's own FormatStringError, confirming the TypeError arises only after
the offset parses. -/
theorem C9_slice_unset_typeError :
    ShellSubst.replace 100 (mkDefaultEngine []) "$\x7bMISSING:1\x7d".data
      = (.error .typeError, mkDefaultEngine []) ∧
    ShellSubst.replace 100 (mkDefaultEngine []) "$\x7bMISSING:1:2\x7d".data
      = (.error .typeError, mkDefaultEngine []) ∧
    Err.typeError.isFormatStringClass = false ∧
    Err.typeError.isSubstitutionClass = false ∧
    ShellSubst.replace 100 (mkDefaultEngine []) "$\x7bMISSING:x\x7d".data
      = (.error (.formatString .sliceOffsetNotNumeric), mkDefaultEngine []) :=
  ⟨rfl, rfl, rfl, rfl, rfl⟩

/-- Engine for C10: `raise_on_error_expansion=False` and no logger. -/
def e10 : ShellSubst := mkShellSubst [] [] false false true true false none

/-- The engine C10 expects afterwards: identical but with the process-wide
default warning sink installed as the logger attribute. -/
def e10w : ShellSubst := mkShellSubst [] [] false false true true false (some .warning)

/-- Engine for C10 with a user-supplied logger already configured. -/
def e10u : ShellSubst := mkShellSubst [] [] false false true true false (some (.user 0))

/-- C10: when the error-substitution condition triggers with
`raise_on_error_expansion` disabled and no logger configured, the engine
installs `logging.warning` (the process-wide default warning sink) as its
own `logger` attribute — a state mutation beyond the Resolution Context
(which stays unchanged) — and the expansion result is the empty string. The
mutation persists across subsequent `replace` calls on the returned engine,
and does not occur when a logger is already configured. -/
theorem C10_logger_install :
    ShellSubst.replace 100 e10 "$\x7bX:?oops\x7d".data = (.ok [], e10w) ∧
    e10w.logger = some .warning ∧
    e10.logger = none ∧
    e10w.values = e10.values ∧
    ShellSubst.replace 100 e10w "plain".data = (.ok "plain".data, e10w) ∧
    ShellSubst.replace 100 e10w "$\x7bX:?oops\x7d".data = (.ok [], e10w) ∧
    ShellSubst.replace 100 e10u "$\x7bX:?oops\x7d".data = (.ok [], e10u) :=
  ⟨rfl, rfl, rfl, rfl, rfl, rfl, rfl⟩
